import Mathlib

/-!
Shallow embedding of the PXI-G1 React frontend ("BUDDY") interaction
contract: per-panel view state, submit handlers, clear handlers, the
route guard, the registration flow and the profile editor, each
translated from the corresponding component source file.  Network and
Firebase collaborators are modelled as explicit outcome parameters and
a functional document store; a handler is a pure function from the
pre-state and the transport outcome to the post-state together with
the list of HTTP requests it issues.
-/

namespace PXI

/-! ## Article Search panel (components/ResponseComparison.js, second unit: ArticleSearch) -/

/-- Article record as produced by the search call and by the hard-coded
mock list in the catch branch of `ArticleSearch.handleSearch`. -/
structure Article where
  id : String
  arxiv_id : String
  title : String
  authors : List String
  abstract : String
  published_date : String
  pdf_url : String
  browser_url : String
  has_text : Bool
  pdf_downloaded : Bool
deriving Repr, DecidableEq

/-- The fixed three-element mock list set by the catch branch of
`ArticleSearch.handleSearch` (source lines 386-423 of the concatenated
ResponseComparison.js). -/
def mockArticles : List Article :=
  [ { id := "2407.14771", arxiv_id := "2407.14771",
      title := "Advancing Event Forecasting through Massive Training of Large Language Models: Challenges, Solutions, and Broader Impacts",
      authors := ["Sang-Woo Lee", "SoMin Yang", "Donghyun Kwak", "Noah Y. Siegel"],
      abstract := "Many recent papers have studied the development of superforecaster-level event forecasting LLMs. While methodological problems with early studies cast doubt on the use of LLMs for event forecasting, recent studies with improved evaluation methods have shown that state-of-the-art LLMs are gradually reaching superforecaster-level performance, and reinforcement learning has also been reported to improve forecasting skills.",
      published_date := "2025-07-25",
      pdf_url := "https://arxiv.org/pdf/2407.14771.pdf",
      browser_url := "https://arxiv.org/abs/2407.14771",
      has_text := true, pdf_downloaded := false },
    { id := "2501.04661", arxiv_id := "2501.04661",
      title := "Towards Effective Immersive Technologies in Medicine: Potential and Future Applications based on VR, AR, XR and AI solutions",
      authors := ["Mariantonietta Morandini", "Barbara Krystańczyk", "Tomasz Kowalewski"],
      abstract := "Mixed Reality (MR) technologies such as Virtual and Augmented Reality (VR, AR) are well established in medical applications, enhancing diagnostics, treatment, and education. However, there are still some limitations and challenges that may be overcome thanks to the latest generations of equipment, software, and frameworks based on extended Reality (XR) by enabling immersive systems that support safer, more controlled environments for training and patient care.",
      published_date := "2025-01-25",
      pdf_url := "https://arxiv.org/pdf/2501.04661.pdf",
      browser_url := "https://arxiv.org/abs/2501.04661",
      has_text := true, pdf_downloaded := false },
    { id := "2501.04123", arxiv_id := "2501.04123",
      title := "Machine Learning Applications in Scientific Computing: A Comprehensive Review",
      authors := ["John Smith", "Maria Garcia", "Chen Wei"],
      abstract := "This paper presents a comprehensive review of machine learning applications in scientific computing, covering recent advances in neural networks, optimization algorithms, and their applications in various scientific domains including physics, chemistry, and biology.",
      published_date := "2025-01-20",
      pdf_url := "https://arxiv.org/pdf/2501.04123.pdf",
      browser_url := "https://arxiv.org/abs/2501.04123",
      has_text := true, pdf_downloaded := false } ]

/-- View state of the ArticleSearch component: the useState hooks
searchTerm, articleCount, isSearching, articles, selectedArticles. -/
structure ASState where
  searchTerm : String
  articleCount : Nat
  isSearching : Bool
  articles : List Article
  selectedArticles : List Nat
deriving Repr, DecidableEq

def asInitial : ASState :=
  { searchTerm := "", articleCount := 5, isSearching := false,
    articles := [], selectedArticles := [] }

/-- Response body of a successful GET /rag/search-articles: the handler
reads `result.articles || result.documents || []`. -/
structure SearchData where
  articles : Option (List Article)
  documents : Option (List Article)
deriving Repr, DecidableEq

/-- Transport outcome of the search request. -/
inductive SearchOutcome where
  | ok (data : SearchData)
  | err
deriving Repr, DecidableEq

/-- Evaluation of `result.articles || result.documents || []` from the success branch. -/
def foundArticles (d : SearchData) : List Article :=
  d.articles.getD (d.documents.getD [])

/-- JavaScript `String.prototype.trim`: drop whitespace from both ends.
Written over the character list so that it evaluates by kernel
reduction (the library `String.trim` gets stuck in well-founded
auxiliaries). -/
def jsTrim (s : String) : String :=
  ⟨((s.data.dropWhile Char.isWhitespace).reverse.dropWhile
      Char.isWhitespace).reverse⟩

/-- Translation of `ArticleSearch.handleSearch`: early-returns (alert only) on an empty
trimmed search term; otherwise sets isSearching, issues the GET request,
and on success replaces the article list and resets the selection, while
on any thrown error it replaces the article list with `mockArticles`
without touching the selection; finally clears isSearching.  Returns the
post-state paired with whether a network request was issued. -/
def handleSearch (s : ASState) (outcome : SearchOutcome) : ASState × Bool :=
  if jsTrim s.searchTerm = "" then (s, false)
  else
    match outcome with
    | .ok d =>
        ({ s with isSearching := false, articles := foundArticles d,
                  selectedArticles := [] }, true)
    | .err =>
        ({ s with isSearching := false, articles := mockArticles }, true)

/-- Submitting via the search button: the button is rendered with
`disabled={isSearching || !searchTerm.trim()}`, so a click invokes
`handleSearch` only when that guard is false. -/
def clickSearch (s : ASState) (outcome : SearchOutcome) : ASState × Bool :=
  if s.isSearching || jsTrim s.searchTerm = "" then (s, false)
  else handleSearch s outcome

/-- Submitting via the text input key handler:
`onKeyPress={(e) => e.key === 'Enter' && handleSearch()}` — the handler
is invoked for the Enter key with no check of `isSearching`. -/
def enterKeySearch (s : ASState) (key : String) (outcome : SearchOutcome) :
    ASState × Bool :=
  if key = "Enter" then handleSearch s outcome else (s, false)

/-- Translation of `handleToggleSelection(articleIndex)` from ArticleSearch. -/
def handleToggleSelection (s : ASState) (articleIndex : Nat) : ASState :=
  if s.selectedArticles.contains articleIndex then
    { s with selectedArticles := s.selectedArticles.filter (· ≠ articleIndex) }
  else
    { s with selectedArticles := s.selectedArticles ++ [articleIndex] }

/-! ## Route guard (App.js and pages/auth.js) -/

/-- Render targets of the route table. -/
inductive Target where
  | auth
  | dashboard
  | textGenerator
  | imageGenerator
  | profile
  | promptForm
deriving Repr, DecidableEq

/-- pages/auth.js with loading resolved: `if (user) return <Navigate
to="/dashboard" />`, otherwise the login/register screen renders. -/
def authPageTarget (user : Bool) : Target :=
  if user then Target.dashboard else Target.auth

/-- App.js route table with loading resolved.  Each guarded route is
`user ? <Page /> : <Navigate to="/" />`; `Navigate to="/"` renders the
AuthPage, which itself redirects an authenticated user to /dashboard.
The catch-all `*` navigates to "/".  The `/agente` route renders
PromptForm with no session guard. -/
def renderTarget (user : Bool) (path : String) : Target :=
  if path = "/" then authPageTarget user
  else if path = "/dashboard" then
    (if user then Target.dashboard else authPageTarget user)
  else if path = "/text-generator" then
    (if user then Target.textGenerator else authPageTarget user)
  else if path = "/image-generator" then
    (if user then Target.imageGenerator else authPageTarget user)
  else if path = "/profile" then
    (if user then Target.profile else authPageTarget user)
  else if path = "/agente" then Target.promptForm
  else authPageTarget user

/-! ## Registration (pages/register.js) and the Firestore profile store -/

/-- Profile document fields, as written by register.js
(`{nombre, apellido, email, tipo, bio, uid}`). -/
structure ProfileDoc where
  nombre : String
  apellido : String
  email : String
  tipo : String
  bio : String
  uid : String
deriving Repr, DecidableEq

/-- Registration form state (`useState` of Register). -/
structure RegisterForm where
  nombre : String
  apellido : String
  email : String
  password : String
  tipo : String
  bio : String
deriving Repr, DecidableEq

/-- Firestore users collection, keyed by uid. -/
def DocStore : Type := String → Option ProfileDoc

/-- Firestore `setDoc(doc(db, "users", uid), fields)`. -/
def setDoc (store : DocStore) (uid : String) (d : ProfileDoc) : DocStore :=
  fun u => if u = uid then some d else store u

/-- Outcome of `createUserWithEmailAndPassword`. -/
inductive CreateUserResult where
  | ok (uid : String)
  | err (message : String)
deriving Repr, DecidableEq

/-- Result of a registration submission: the store after the handler
ran, and the alert message surfaced by the catch branch, if any. -/
structure RegisterOutcome where
  store : DocStore
  alertMessage : Option String

/-- Translation of `Register.handleSubmit`: awaits credential creation; on success
writes the profile document keyed by the returned uid with the
submitted fields plus the uid; on failure shows
`Error al registrar usuario: err.message` and writes nothing. -/
def registerSubmit (store : DocStore) (form : RegisterForm)
    (res : CreateUserResult) : RegisterOutcome :=
  match res with
  | .ok uid =>
      { store := setDoc store uid
          { nombre := form.nombre, apellido := form.apellido,
            email := form.email, tipo := form.tipo, bio := form.bio,
            uid := uid },
        alertMessage := none }
  | .err m =>
      { store := store,
        alertMessage := some ("Error al registrar usuario: " ++ m) }

/-! ## Profile editor (pages/Profile.js) -/

/-- Profile editor field set (`userInfo` useState). -/
structure UserInfo where
  nombre : String
  apellido : String
  email : String
  tipo : String
  bio : String
deriving Repr, DecidableEq

/-- Firestore users collection as seen by the profile editor. -/
def FireStore : Type := String → Option UserInfo

/-- Firestore `getDoc` of the users document for a uid. -/
def fsGetDoc (store : FireStore) (uid : String) : Option UserInfo :=
  store uid

/-- Firestore `updateDoc` on the users document for a uid: updateDoc fails
(throws) when the document does not exist; otherwise it writes the
supplied fields.  `none` models the thrown error. -/
def fsUpdateDoc (store : FireStore) (uid : String) (info : UserInfo) :
    Option FireStore :=
  match store uid with
  | some _ => some (fun u => if u = uid then some info else store u)
  | none => none

/-- Profile component view state. -/
structure ProfState where
  userInfo : UserInfo
  isEditing : Bool
  isSaving : Bool
deriving Repr, DecidableEq

/-- Initial `userInfo` useState value of the Profile component. -/
def profInitialInfo : UserInfo :=
  { nombre := "", apellido := "", email := "", tipo := "particular", bio := "" }

/-- Component state at a fresh mount, before the effect runs. -/
def profMountState : ProfState :=
  { userInfo := profInitialInfo, isEditing := false, isSaving := false }

/-- Translation of `Profile.fetchUserData` (the mount effect): if the document exists,
`setUserInfo(userDoc.data())`; otherwise the state is left unchanged. -/
def fetchUserData (store : FireStore) (uid : String) (s : ProfState) :
    ProfState :=
  match fsGetDoc store uid with
  | some d => { s with userInfo := d }
  | none => s

/-- Translation of `Profile.handleSave`: sets isSaving, awaits `updateDoc` with the
full current field set; on success leaves edit mode; on a thrown error
only an alert is shown (isEditing stays as it was); finally clears
isSaving. -/
def handleSave (store : FireStore) (uid : String) (s : ProfState) :
    FireStore × ProfState :=
  match fsUpdateDoc store uid s.userInfo with
  | some store2 => (store2, { s with isEditing := false, isSaving := false })
  | none => (store, { s with isSaving := false })

/-- Client operations available in the Profile editor UI.  The email
input is rendered with `disabled={true}` and no onChange handler, so no
email-edit operation exists. -/
inductive ProfileOp where
  | setNombre (v : String)
  | setApellido (v : String)
  | setTipo (v : String)
  | setBio (v : String)
  | startEdit
  | cancelEdit
  | save
  | refetch
deriving Repr, DecidableEq

/-- The profile editor together with the store it talks to. -/
structure ProfileWorld where
  store : FireStore
  state : ProfState

/-- One client operation.  Field inputs are `disabled={!isEditing}`, so
edits apply only in edit mode; save routes through `handleSave`;
refetch models a fresh mount effect re-reading the document. -/
def profStep (uid : String) (w : ProfileWorld) (op : ProfileOp) :
    ProfileWorld :=
  match op with
  | .setNombre v =>
      if w.state.isEditing then
        { w with state :=
            { w.state with userInfo := { w.state.userInfo with nombre := v } } }
      else w
  | .setApellido v =>
      if w.state.isEditing then
        { w with state :=
            { w.state with userInfo := { w.state.userInfo with apellido := v } } }
      else w
  | .setTipo v =>
      if w.state.isEditing then
        { w with state :=
            { w.state with userInfo := { w.state.userInfo with tipo := v } } }
      else w
  | .setBio v =>
      if w.state.isEditing then
        { w with state :=
            { w.state with userInfo := { w.state.userInfo with bio := v } } }
      else w
  | .startEdit => { w with state := { w.state with isEditing := true } }
  | .cancelEdit => { w with state := { w.state with isEditing := false } }
  | .save =>
      let p := handleSave w.store uid w.state
      { store := p.1, state := p.2 }
  | .refetch => { w with state := fetchUserData w.store uid w.state }

/-- Run a sequence of client operations. -/
def profRun (uid : String) (w : ProfileWorld) (ops : List ProfileOp) :
    ProfileWorld :=
  ops.foldl (profStep uid) w

/-! ## Failure classification in the catch branches -/

/-- Shape of an axios error as the catch branches inspect it:
`error.response` present (server replied with an error body, carrying
an optional `data.detail`), `error.request` present with no response
received, or any other thrown exception. -/
inductive AxiosFailure where
  | response (status : Nat) (detail : Option String)
  | request
  | other (message : String)
deriving Repr, DecidableEq

/-- JavaScript `x || dflt` on an optional string: an absent or empty
string falls back to the default. -/
def jsOr (v : Option String) (dflt : String) : String :=
  match v with
  | some s => if s = "" then dflt else s
  | none => dflt

/-- KnowledgeQA.handleSubmit catch branch: the message written into the
response panel, classified by the transport outcome. -/
def kqaCatchMessage (base : String) (e : AxiosFailure) : String :=
  match e with
  | .response _ d => "❌ Error del servidor: " ++ jsOr d "Error del servidor"
  | .request =>
      "❌ Error de conexión: No se pudo conectar al servidor RAG en " ++ base ++
        "/rag/generate\n\n¿Está ejecutándose el backend en puerto 8000?"
  | .other m => "❌ Error inesperado: " ++ m

/-- ResponseComparison.handleCompare catch branch: the pair of messages
written into the rag/simple response panels. -/
def compareCatchMessages (base : String) (e : AxiosFailure) :
    String × String :=
  match e with
  | .response _ d =>
      let errorMsg := jsOr d "Error del servidor"
      ("❌ Error del servidor: " ++ errorMsg,
       "❌ Error del servidor: " ++ errorMsg)
  | .request =>
      ("❌ Error de conexión: No se pudo conectar al servidor RAG en " ++ base ++
         "/rag/compare\n\n¿Está ejecutándose el backend en puerto 8000?",
       "❌ Error de conexión: Verificar que el backend esté ejecutándose")
  | .other m =>
      ("❌ Error inesperado: " ++ m, "❌ Error inesperado: " ++ m)

/-- Accessor for `error.response?.status`: the HTTP status when a server response
was received, absent otherwise. -/
def responseStatus : AxiosFailure → Option Nat
  | .response st _ => some st
  | .request => none
  | .other _ => none

/-- TextGenerator.handleGenerate catch branch: the generated-text slot
is overwritten with a fixed message chosen by
`error.response?.status === 404`, with a single generic fallback for
every other failure. -/
def textGenCatchMessage (e : AxiosFailure) : String :=
  if responseStatus e = some 404 then
    "❌ Error: El servidor no se encuentra disponible. Verifica que el backend esté corriendo en http://localhost:8000"
  else "❌ Error al generar el texto. Por favor, intenta nuevamente."

/-- Financial PromptForm.handleSubmit catch branch: one generic message
for every failure, with no classification. -/
def financialCatchMessage (_e : AxiosFailure) : String :=
  "Ocurrió un error al procesar tu solicitud financiera."

/-! ## HTTP requests issued per submit invocation -/

inductive Method where
  | get
  | post
deriving Repr, DecidableEq

structure HttpRequest where
  method : Method
  url : String
deriving Repr, DecidableEq

/-- Environment-configured base URL with its fallback
(`process.env.REACT_APP_API_BASE_URL || 'http://localhost:8000'`). -/
def apiBaseDefault : String := "http://localhost:8000"

/-- TextGenerator.handleGenerate: one POST to `${base}/generate`; the
handler has no internal guard (the submit button is disabled on an
empty prompt). -/
def textGenRequests (base : String) : List HttpRequest :=
  [{ method := Method.post, url := base ++ "/generate" }]

/-- ImageGenerator.handleGenerate (pages/ImageGenerator.js): a
`setTimeout` simulation that sets a placeholder image URL; no HTTP
request is issued. -/
def imageGenRequests : List HttpRequest := []

/-- ImageGenerator.handleGenerate (later revision in part_002): after
the empty-prompt guard, one POST to the hard-coded
`http://localhost:8000/generate-image`. -/
def imageGenHttpRequests (prompt : String) : List HttpRequest :=
  if jsTrim prompt = "" then []
  else [{ method := Method.post,
          url := "http://localhost:8000/generate-image" }]

/-- Financial PromptForm.handleSubmit: one POST to the hard-coded
`http://localhost:8000/news-nlp`. -/
def financialRequests : List HttpRequest :=
  [{ method := Method.post, url := "http://localhost:8000/news-nlp" }]

/-- KnowledgeQA.handleSubmit: early-returns on an empty trimmed
question, otherwise one POST to `${base}/rag/generate`. -/
def kqaRequests (base question : String) : List HttpRequest :=
  if jsTrim question = "" then []
  else [{ method := Method.post, url := base ++ "/rag/generate" }]

/-- ResponseComparison.handleCompare (single-call revision): one GET to
`${base}/rag/compare` after the empty-question guard. -/
def compareRequests (base question : String) : List HttpRequest :=
  if jsTrim question = "" then []
  else [{ method := Method.get, url := base ++ "/rag/compare" }]

/-- ResponseComparison.handleCompare (two-call revision, Promise.all):
two parallel POSTs after the empty-question guard. -/
def compareTwoCallRequests (base question : String) : List HttpRequest :=
  if jsTrim question = "" then []
  else
    [{ method := Method.post, url := base ++ "/rag/ask-knowledge" },
     { method := Method.post, url := base ++ "/generate" }]

/-- ArticleSearch.handleSearch: one GET to
`${base}/rag/search-articles` after the empty-term guard. -/
def searchArticlesRequests (base term : String) : List HttpRequest :=
  if jsTrim term = "" then []
  else [{ method := Method.get, url := base ++ "/rag/search-articles" }]

/-! ## Clear handlers and panel view states -/

/-- TextGenerator view state (useState hooks of part_002). -/
structure TGState where
  selectedPlatform : String
  prompt : String
  selectedLanguage : String
  generatedText : String
  isGenerating : Bool
deriving Repr, DecidableEq

/-- Initial useState values of TextGenerator. -/
def tgInitial : TGState :=
  { selectedPlatform := "twitter", prompt := "", selectedLanguage := "es",
    generatedText := "", isGenerating := false }

/-- The TextGenerator Limpiar button: `onClick={() => setGeneratedText('')}`. -/
def tgLimpiar (s : TGState) : TGState :=
  { s with generatedText := "" }

/-- ImageGenerator view state. -/
structure IGState where
  prompt : String
  style : String
  size : String
  generatedImage : String
  isGenerating : Bool
deriving Repr, DecidableEq

/-- Initial useState values of ImageGenerator. -/
def igInitial : IGState :=
  { prompt := "", style := "realistic", size := "1024x1024",
    generatedImage := "", isGenerating := false }

/-- The ImageGenerator Limpiar button: `onClick={() => setGeneratedImage('')}`. -/
def igLimpiar (s : IGState) : IGState :=
  { s with generatedImage := "" }

/-- Financial PromptForm view state (part_007). -/
structure FinState where
  prompt : String
  language : String
  coinName : String
  response : String
  isLoading : Bool
deriving Repr, DecidableEq

/-- Initial useState values of the financial PromptForm. -/
def finInitial : FinState :=
  { prompt := "", language := "es", coinName := "", response := "",
    isLoading := false }

/-- Financial `PromptForm.handleClear`: resets prompt, coinName and
response; the language selection is not touched. -/
def finHandleClear (s : FinState) : FinState :=
  { s with prompt := "", coinName := "", response := "" }

/-- Comparison metrics object consumed by the comparison panel UI. -/
structure ComparisonMetrics where
  rag_response_length : Option Nat
  simple_response_length : Option Nat
deriving Repr, DecidableEq

/-- ResponseComparison view state (single-call revision). -/
structure RCState where
  question : String
  ragResponse : String
  simpleResponse : String
  ragDocuments : List String
  documentsUsed : Nat
  isLoading : Bool
  connectionStatus : String
  comparisonMetrics : Option ComparisonMetrics
deriving Repr, DecidableEq

/-- Initial useState values of ResponseComparison. -/
def rcInitial : RCState :=
  { question := "", ragResponse := "", simpleResponse := "",
    ragDocuments := [], documentsUsed := 0, isLoading := false,
    connectionStatus := "unknown", comparisonMetrics := none }

/-- Translation of `ResponseComparison.handleClearAll`: resets question, both
responses, documents, counters, connection status and metrics; the
isLoading flag is not touched. -/
def rcHandleClearAll (s : RCState) : RCState :=
  { s with question := "", ragResponse := "", simpleResponse := "",
           ragDocuments := [], documentsUsed := 0,
           connectionStatus := "unknown", comparisonMetrics := none }

/-! ## Concrete states used by counterexamples and witnesses -/

/-- An ArticleSearch state with a search already in flight. -/
def asBusy : ASState :=
  { searchTerm := "ai", articleCount := 5, isSearching := true,
    articles := [], selectedArticles := [] }

/-- An ArticleSearch state with a non-empty selection from a prior
search. -/
def asSelected : ASState :=
  { searchTerm := "ai", articleCount := 5, isSearching := false,
    articles := [], selectedArticles := [0] }

/-! ## C1 — single-flight per panel instance -/

/-- C1: the claim states that a second submit during `submitting` never
issues a network call, including the Enter-key path.  Counterexample:
in a state with `isSearching = true` and a non-empty term, the
ArticleSearch Enter-key handler invokes `handleSearch`, which has no
isSearching guard and issues the GET request — a second in-flight
request on the same instance. -/
theorem C1_counterexample :
    asBusy.isSearching = true ∧
    (enterKeySearch asBusy "Enter" SearchOutcome.err).2 = true :=
  ⟨rfl, by decide⟩

/-- C1 (amended): single-flight holds for the button path — the search
button is disabled while `isSearching`, so a click issues no call —
but the Enter-key handler issues a call whenever the trimmed term is
non-empty, regardless of `isSearching`. -/
theorem C1_single_flight_amended (s : ASState) (o : SearchOutcome)
    (h : s.isSearching = true) :
    (clickSearch s o).2 = false ∧
    ((enterKeySearch s "Enter" o).2 = true ↔ jsTrim s.searchTerm ≠ "") := by
  constructor
  · simp [clickSearch, h]
  · unfold enterKeySearch handleSearch
    rw [if_pos rfl]
    by_cases ht : jsTrim s.searchTerm = ""
    · simp [ht]
    · cases o <;> simp [ht]

/-- C1 witness: the amended theorem applied at `asBusy`. -/
theorem C1_single_flight_amended_witness :
    asBusy.isSearching = true ∧
    ((clickSearch asBusy SearchOutcome.err).2 = false ∧
     ((enterKeySearch asBusy "Enter" SearchOutcome.err).2 = true ↔
        jsTrim asBusy.searchTerm ≠ "")) :=
  ⟨rfl, C1_single_flight_amended asBusy SearchOutcome.err rfl⟩

/-! ## C6 — selection after a new search -/

/-- C6: the claim states the selection set is empty after every
completed search, success or failure.  Counterexample: a failing search
from a state with selection `[0]` replaces the article list with the
mock list but leaves the selection at `[0]`. -/
theorem C6_counterexample :
    (handleSearch asSelected SearchOutcome.err).1.selectedArticles = [0] ∧
    (handleSearch asSelected SearchOutcome.err).1.articles = mockArticles := by
  unfold handleSearch
  rw [if_neg (by decide)]
  exact ⟨rfl, rfl⟩

/-- C6 (amended): after a successful search the selection set is empty;
after a failing search the mock list replaces the results while the
prior selection is retained unchanged. -/
theorem C6_selection_amended (s : ASState) (d : SearchData)
    (h : jsTrim s.searchTerm ≠ "") :
    (handleSearch s (SearchOutcome.ok d)).1.selectedArticles = [] ∧
    (handleSearch s SearchOutcome.err).1.selectedArticles =
      s.selectedArticles ∧
    (handleSearch s SearchOutcome.err).1.articles = mockArticles := by
  refine ⟨?_, ?_, ?_⟩ <;> simp [handleSearch, h]

/-- C6 witness: the amended theorem applied at `asSelected`. -/
theorem C6_selection_amended_witness :
    jsTrim asSelected.searchTerm ≠ "" ∧
    ((handleSearch asSelected
        (SearchOutcome.ok ⟨some [], none⟩)).1.selectedArticles = [] ∧
     (handleSearch asSelected SearchOutcome.err).1.selectedArticles =
       asSelected.selectedArticles ∧
     (handleSearch asSelected SearchOutcome.err).1.articles = mockArticles) :=
  ⟨by decide, C6_selection_amended asSelected ⟨some [], none⟩ (by decide)⟩

/-! ## C10 — mock-article fallback on search failure -/

/-- C10: the claim states a failed search is indistinguishable at the
interface from a successful search returning the mock articles.
Counterexample: from a state with selection `[0]`, the failure path
retains the selection while the success path clears it, so the two
post-states differ. -/
theorem C10_counterexample :
    (handleSearch asSelected SearchOutcome.err).1 ≠
      (handleSearch asSelected
        (SearchOutcome.ok ⟨some mockArticles, none⟩)).1 := by
  intro h
  exact absurd (congrArg ASState.selectedArticles h) (by decide)

/-- C10 (amended): a failing search surfaces no error: it sets the
fixed three-element mock list, ends with `isSearching = false` (the
state has no error field at all), and retains the prior selection; when
the prior selection was empty, the post-state coincides exactly with
that of a successful search returning the mock articles. -/
theorem C10_mock_fallback_amended (s : ASState)
    (h : jsTrim s.searchTerm ≠ "") :
    (handleSearch s SearchOutcome.err).1.articles = mockArticles ∧
    (handleSearch s SearchOutcome.err).1.isSearching = false ∧
    (handleSearch s SearchOutcome.err).2 = true ∧
    (handleSearch s SearchOutcome.err).1.selectedArticles =
      s.selectedArticles ∧
    (s.selectedArticles = [] →
      (handleSearch s SearchOutcome.err).1 =
        (handleSearch s (SearchOutcome.ok ⟨some mockArticles, none⟩)).1) := by
  obtain ⟨term, cnt, busy, arts, sel⟩ := s
  refine ⟨?_, ?_, ?_, ?_, fun hsel => ?_⟩ <;>
    simp_all [handleSearch, foundArticles]

/-- C10 witness: the amended theorem applied at the initial state with
the term "ai" typed in. -/
theorem C10_mock_fallback_amended_witness :
    jsTrim (ASState.searchTerm { asInitial with searchTerm := "ai" }) ≠ "" ∧
    ((handleSearch { asInitial with searchTerm := "ai" }
        SearchOutcome.err).1.articles = mockArticles ∧
     (handleSearch { asInitial with searchTerm := "ai" }
        SearchOutcome.err).1.isSearching = false ∧
     (handleSearch { asInitial with searchTerm := "ai" }
        SearchOutcome.err).2 = true ∧
     (handleSearch { asInitial with searchTerm := "ai" }
        SearchOutcome.err).1.selectedArticles =
       ASState.selectedArticles { asInitial with searchTerm := "ai" } ∧
     (ASState.selectedArticles { asInitial with searchTerm := "ai" } = [] →
       (handleSearch { asInitial with searchTerm := "ai" }
          SearchOutcome.err).1 =
         (handleSearch { asInitial with searchTerm := "ai" }
            (SearchOutcome.ok ⟨some mockArticles, none⟩)).1)) :=
  ⟨by decide,
   C10_mock_fallback_amended { asInitial with searchTerm := "ai" }
     (by decide)⟩

/-! ## C2 — route guard -/

/-- C2: the claim states every protected or unknown path with a null
session renders the auth screen, explicitly including `/agente`.
Counterexample: the `/agente` route is registered without a session
guard, so an unauthenticated request renders the PromptForm panel, not
the auth screen. -/
theorem C2_counterexample :
    renderTarget false "/agente" = Target.promptForm ∧
    Target.promptForm ≠ Target.auth :=
  ⟨rfl, by decide⟩

/-- C2 (amended): for the four guarded routes an unauthenticated user
is redirected to the auth screen; an authenticated user at the auth
screen is redirected to the dashboard; an unknown path falls through
the catch-all to the auth screen when unauthenticated (and on to the
dashboard when authenticated); the `/agente` route alone is unguarded
and renders the prompt form for every session state. -/
theorem C2_route_guard_amended (p q : String)
    (hp : p ∈ ["/dashboard", "/text-generator", "/image-generator", "/profile"])
    (hq : q ∉ ["/", "/dashboard", "/text-generator", "/image-generator",
               "/profile", "/agente"]) :
    renderTarget false p = Target.auth ∧
    renderTarget true "/" = Target.dashboard ∧
    renderTarget false q = Target.auth ∧
    renderTarget true q = Target.dashboard ∧
    (∀ u, renderTarget u "/agente" = Target.promptForm) := by
  simp only [List.mem_cons, List.not_mem_nil, or_false, not_or] at hq
  obtain ⟨h1, h2, h3, h4, h5, h6⟩ := hq
  refine ⟨?_, rfl, ?_, ?_, fun u => ?_⟩
  · simp only [List.mem_cons, List.not_mem_nil, or_false] at hp
    rcases hp with rfl | rfl | rfl | rfl <;> rfl
  · unfold renderTarget
    rw [if_neg h1, if_neg h2, if_neg h3, if_neg h4, if_neg h5, if_neg h6]
    rfl
  · unfold renderTarget
    rw [if_neg h1, if_neg h2, if_neg h3, if_neg h4, if_neg h5, if_neg h6]
    rfl
  · cases u <;> rfl

/-- C2 witness: the amended theorem applied at the dashboard route and
an unknown path. -/
theorem C2_route_guard_amended_witness :
    ("/dashboard" ∈
      ["/dashboard", "/text-generator", "/image-generator", "/profile"]) ∧
    ("/xyz" ∉ ["/", "/dashboard", "/text-generator", "/image-generator",
               "/profile", "/agente"]) ∧
    (renderTarget false "/dashboard" = Target.auth ∧
     renderTarget true "/" = Target.dashboard ∧
     renderTarget false "/xyz" = Target.auth ∧
     renderTarget true "/xyz" = Target.dashboard ∧
     (∀ u, renderTarget u "/agente" = Target.promptForm)) :=
  ⟨by decide, by decide,
   C2_route_guard_amended "/dashboard" "/xyz" (by decide) (by decide)⟩

/-! ## C3 — registration writes the profile document -/

/-- C3: `Register.handleSubmit` first creates the credential; exactly
when creation succeeds it writes the profile document keyed by the
returned uid containing the submitted nombre, apellido, email, tipo and
bio plus the uid, and surfaces no error; on credential failure it
writes nothing and surfaces the error message. -/
theorem C3_register_profile_write (store : DocStore) (form : RegisterForm)
    (uid m : String) :
    (registerSubmit store form (CreateUserResult.ok uid)).store uid =
      some { nombre := form.nombre, apellido := form.apellido,
             email := form.email, tipo := form.tipo, bio := form.bio,
             uid := uid } ∧
    (registerSubmit store form (CreateUserResult.ok uid)).alertMessage =
      none ∧
    (registerSubmit store form (CreateUserResult.err m)).store = store ∧
    (registerSubmit store form (CreateUserResult.err m)).alertMessage =
      some ("Error al registrar usuario: " ++ m) := by
  refine ⟨?_, rfl, rfl, rfl⟩
  simp [registerSubmit, setDoc]

/-! ## C4 — failure message classification -/

/-- C4: the claim states every panel classifies failures three ways
(server body detail verbatim / fixed cannot-reach message naming the
URL / generic fallback).  Counterexample: the TextGenerator catch
branch surfaces one fixed generic message for a server error body
whatever its detail says, and gives the same message for a no-response
failure as for any other exception, naming no URL. -/
theorem C4_counterexample :
    textGenCatchMessage (AxiosFailure.response 500 (some "boom")) =
      "❌ Error al generar el texto. Por favor, intenta nuevamente." ∧
    textGenCatchMessage (AxiosFailure.response 500 (some "boom")) =
      textGenCatchMessage (AxiosFailure.response 500 (some "otra causa")) ∧
    textGenCatchMessage AxiosFailure.request =
      textGenCatchMessage (AxiosFailure.other "x") :=
  ⟨rfl, rfl, rfl⟩

/-- C4 (amended): the three-way classification (server body detail
embedded verbatim / fixed cannot-reach message naming the attempted URL
/ generic fallback) holds for the Knowledge QA and RAG comparison
panels; the Text Generator instead surfaces a fixed
server-unavailable message exactly on status 404 and one generic
fallback for every other failure, and the Financial panel surfaces a
single generic message for every failure.  No panel retries: each
submit issues its request list exactly once, independent of the
outcome. -/
theorem C4_error_classification_amended (base d m q : String) (st : Nat)
    (hd : d ≠ "") (hst : st ≠ 404) :
    kqaCatchMessage base (AxiosFailure.response st (some d)) =
      "❌ Error del servidor: " ++ d ∧
    kqaCatchMessage base AxiosFailure.request =
      "❌ Error de conexión: No se pudo conectar al servidor RAG en " ++
        base ++ "/rag/generate\n\n¿Está ejecutándose el backend en puerto 8000?" ∧
    kqaCatchMessage base (AxiosFailure.other m) =
      "❌ Error inesperado: " ++ m ∧
    (compareCatchMessages base (AxiosFailure.response st (some d))).1 =
      "❌ Error del servidor: " ++ d ∧
    (compareCatchMessages base AxiosFailure.request).1 =
      "❌ Error de conexión: No se pudo conectar al servidor RAG en " ++
        base ++ "/rag/compare\n\n¿Está ejecutándose el backend en puerto 8000?" ∧
    (compareCatchMessages base (AxiosFailure.other m)).1 =
      "❌ Error inesperado: " ++ m ∧
    textGenCatchMessage (AxiosFailure.response st (some d)) =
      "❌ Error al generar el texto. Por favor, intenta nuevamente." ∧
    textGenCatchMessage (AxiosFailure.response 404 (some d)) =
      "❌ Error: El servidor no se encuentra disponible. Verifica que el backend esté corriendo en http://localhost:8000" ∧
    financialCatchMessage (AxiosFailure.response st (some d)) =
      "Ocurrió un error al procesar tu solicitud financiera." ∧
    (textGenRequests base).length = 1 ∧
    (kqaRequests base q).length ≤ 1 ∧
    (compareRequests base q).length ≤ 1 := by
  refine ⟨?_, rfl, rfl, ?_, rfl, rfl, ?_, rfl, rfl, rfl, ?_, ?_⟩
  · simp [kqaCatchMessage, jsOr, hd]
  · simp [compareCatchMessages, jsOr, hd]
  · simp [textGenCatchMessage, responseStatus, hst]
  · by_cases hq : jsTrim q = "" <;> simp [kqaRequests, hq]
  · by_cases hq : jsTrim q = "" <;> simp [compareRequests, hq]

/-- C4 witness: the amended theorem applied at a 500 response with
detail "boom". -/
theorem C4_error_classification_amended_witness :
    ("boom" ≠ "" ∧ (500 : Nat) ≠ 404) ∧
    (kqaCatchMessage apiBaseDefault
        (AxiosFailure.response 500 (some "boom")) =
      "❌ Error del servidor: " ++ "boom" ∧
     kqaCatchMessage apiBaseDefault AxiosFailure.request =
      "❌ Error de conexión: No se pudo conectar al servidor RAG en " ++
        apiBaseDefault ++
        "/rag/generate\n\n¿Está ejecutándose el backend en puerto 8000?" ∧
     kqaCatchMessage apiBaseDefault (AxiosFailure.other "x") =
      "❌ Error inesperado: " ++ "x" ∧
     (compareCatchMessages apiBaseDefault
        (AxiosFailure.response 500 (some "boom"))).1 =
      "❌ Error del servidor: " ++ "boom" ∧
     (compareCatchMessages apiBaseDefault AxiosFailure.request).1 =
      "❌ Error de conexión: No se pudo conectar al servidor RAG en " ++
        apiBaseDefault ++
        "/rag/compare\n\n¿Está ejecutándose el backend en puerto 8000?" ∧
     (compareCatchMessages apiBaseDefault (AxiosFailure.other "x")).1 =
      "❌ Error inesperado: " ++ "x" ∧
     textGenCatchMessage (AxiosFailure.response 500 (some "boom")) =
      "❌ Error al generar el texto. Por favor, intenta nuevamente." ∧
     textGenCatchMessage (AxiosFailure.response 404 (some "boom")) =
      "❌ Error: El servidor no se encuentra disponible. Verifica que el backend esté corriendo en http://localhost:8000" ∧
     financialCatchMessage (AxiosFailure.response 500 (some "boom")) =
      "Ocurrió un error al procesar tu solicitud financiera." ∧
     (textGenRequests apiBaseDefault).length = 1 ∧
     (kqaRequests apiBaseDefault "hola").length ≤ 1 ∧
     (compareRequests apiBaseDefault "hola").length ≤ 1) :=
  ⟨⟨by decide, by decide⟩,
   C4_error_classification_amended apiBaseDefault "boom" "x" "hola" 500
     (by decide) (by decide)⟩

/-! ## C8 — HTTP calls per submit -/

/-- C8: the claim states every panel issues exactly one HTTP call per
submit.  Counterexample: the Image Generator submit issues zero calls
(a setTimeout simulation) and the two-call comparison revision issues
two parallel calls. -/
theorem C8_counterexample :
    imageGenRequests.length = 0 ∧
    (compareTwoCallRequests apiBaseDefault "hola").length = 2 :=
  ⟨rfl, by decide⟩

/-- C8 (amended): the Text, Financial, Knowledge QA, single-call
comparison and Article Search panels each issue exactly one call per
submit — POST for generation actions and GET for search/compare — and
the later Image Generator revision issues one POST; but the
ImageGenerator.js page cited by the claim issues none (client-side
simulation) and the two-call comparison revision issues two parallel
POSTs. -/
theorem C8_request_count_amended (base q t : String)
    (hq : jsTrim q ≠ "") (ht : jsTrim t ≠ "") :
    textGenRequests base =
      [{ method := Method.post, url := base ++ "/generate" }] ∧
    financialRequests =
      [{ method := Method.post, url := "http://localhost:8000/news-nlp" }] ∧
    kqaRequests base q =
      [{ method := Method.post, url := base ++ "/rag/generate" }] ∧
    compareRequests base q =
      [{ method := Method.get, url := base ++ "/rag/compare" }] ∧
    searchArticlesRequests base t =
      [{ method := Method.get, url := base ++ "/rag/search-articles" }] ∧
    imageGenHttpRequests q =
      [{ method := Method.post,
         url := "http://localhost:8000/generate-image" }] ∧
    imageGenRequests = [] ∧
    (compareTwoCallRequests base q).length = 2 := by
  refine ⟨rfl, rfl, ?_, ?_, ?_, ?_, rfl, ?_⟩ <;>
    simp [kqaRequests, compareRequests, searchArticlesRequests,
          imageGenHttpRequests, compareTwoCallRequests, hq, ht]

/-- C8 witness: the amended theorem applied at the default base URL and
the inputs "hola" and "ai". -/
theorem C8_request_count_amended_witness :
    (jsTrim "hola" ≠ "" ∧ jsTrim "ai" ≠ "") ∧
    (textGenRequests apiBaseDefault =
      [{ method := Method.post, url := apiBaseDefault ++ "/generate" }] ∧
     financialRequests =
      [{ method := Method.post, url := "http://localhost:8000/news-nlp" }] ∧
     kqaRequests apiBaseDefault "hola" =
      [{ method := Method.post, url := apiBaseDefault ++ "/rag/generate" }] ∧
     compareRequests apiBaseDefault "hola" =
      [{ method := Method.get, url := apiBaseDefault ++ "/rag/compare" }] ∧
     searchArticlesRequests apiBaseDefault "ai" =
      [{ method := Method.get,
         url := apiBaseDefault ++ "/rag/search-articles" }] ∧
     imageGenHttpRequests "hola" =
      [{ method := Method.post,
         url := "http://localhost:8000/generate-image" }] ∧
     imageGenRequests = [] ∧
     (compareTwoCallRequests apiBaseDefault "hola").length = 2) :=
  ⟨⟨by decide, by decide⟩,
   C8_request_count_amended apiBaseDefault "hola" "ai"
     (by decide) (by decide)⟩

/-! ## C5 — clear resets to initial defaults -/

/-- C5: the claim states every panel's clear restores every field to
its initial default.  Counterexample: the TextGenerator Limpiar button
only blanks the generated text; with "hola" typed in the prompt the
post-clear state keeps the prompt and differs from the initial state. -/
theorem C5_counterexample :
    (tgLimpiar { tgInitial with prompt := "hola", generatedText := "texto" }).prompt = "hola" ∧
    tgLimpiar { tgInitial with prompt := "hola", generatedText := "texto" } ≠ tgInitial :=
  ⟨rfl, by decide⟩

/-- C5 (amended): the comparison panel's clear resets every field and
status to its initial default (only the in-flight flag is untouched);
the Text and Image generators' Limpiar clears only the generated
output, leaving the input fields as they were; the Financial clear
resets prompt, coin and response but not the language; the Text
Generator reaches the initial state through Limpiar only when its
inputs were already at their defaults. -/
theorem C5_clear_amended (s : TGState) (si : IGState) (sf : FinState)
    (sr : RCState) :
    rcHandleClearAll sr = { rcInitial with isLoading := sr.isLoading } ∧
    (tgLimpiar s).generatedText = "" ∧
    (tgLimpiar s).prompt = s.prompt ∧
    (tgLimpiar s).selectedPlatform = s.selectedPlatform ∧
    (tgLimpiar s).selectedLanguage = s.selectedLanguage ∧
    (igLimpiar si).generatedImage = "" ∧
    (igLimpiar si).prompt = si.prompt ∧
    (igLimpiar si).style = si.style ∧
    (finHandleClear sf).prompt = "" ∧
    (finHandleClear sf).coinName = "" ∧
    (finHandleClear sf).response = "" ∧
    (finHandleClear sf).language = sf.language ∧
    (tgLimpiar s = tgInitial ↔
      s.selectedPlatform = "twitter" ∧ s.prompt = "" ∧
      s.selectedLanguage = "es" ∧ s.isGenerating = false) := by
  obtain ⟨a1, a2, a3, a4, a5⟩ := s
  obtain ⟨d1, d2, d3, d4, d5, d6, d7, d8⟩ := sr
  simp [rcHandleClearAll, rcInitial, tgLimpiar, tgInitial, igLimpiar,
        finHandleClear]

/-! ## C7 — profile save / fetch round trip -/

/-- C7: a successful `handleSave` followed by a fresh mount-and-fetch
of the document for that uid returns exactly the field set that was
saved. -/
theorem C7_profile_round_trip (store : FireStore) (uid : String)
    (s : ProfState) (hsome : (store uid).isSome = true) :
    (fetchUserData (handleSave store uid s).1 uid profMountState).userInfo =
      s.userInfo := by
  cases hst : store uid with
  | none => rw [hst] at hsome; simp at hsome
  | some d =>
      simp [handleSave, fsUpdateDoc, fetchUserData, fsGetDoc, hst]

/-- Profile document used by the concrete store below. -/
def wInfo : UserInfo :=
  { nombre := "Ana", apellido := "Ruiz", email := "a@b.com",
    tipo := "particular", bio := "hi" }

/-- Edited field set about to be saved. -/
def wInfoEdited : UserInfo :=
  { nombre := "Eva", apellido := "Gil", email := "a@b.com",
    tipo := "empresa", bio := "bye" }

/-- A store holding one profile document under uid U1. -/
def wStore : FireStore :=
  fun u => if u = "U1" then some wInfo else none

/-- C7 witness: the round-trip theorem applied at the concrete store. -/
theorem C7_profile_round_trip_witness :
    (wStore "U1").isSome = true ∧
    (fetchUserData
        (handleSave wStore "U1"
          { userInfo := wInfoEdited, isEditing := true,
            isSaving := false }).1 "U1"
        profMountState).userInfo = wInfoEdited :=
  ⟨rfl,
   C7_profile_round_trip wStore "U1"
     { userInfo := wInfoEdited, isEditing := true, isSaving := false } rfl⟩

/-! ## C9 — email immutability in the profile editor -/

/-- The editor state agrees with the stored document on the email
field (true after any mount fetch of an existing document, and
vacuously when no document exists). -/
def emailAgrees (uid : String) (w : ProfileWorld) : Prop :=
  ∀ d, w.store uid = some d → w.state.userInfo.email = d.email

theorem profStep_email (uid : String) (w : ProfileWorld) (op : ProfileOp)
    (h : emailAgrees uid w) :
    emailAgrees uid (profStep uid w op) ∧
    ((profStep uid w op).store uid).map UserInfo.email =
      (w.store uid).map UserInfo.email := by
  cases op with
  | setNombre v =>
      by_cases he : w.state.isEditing <;>
        simp_all [profStep, he, emailAgrees]
  | setApellido v =>
      by_cases he : w.state.isEditing <;>
        simp_all [profStep, he, emailAgrees]
  | setTipo v =>
      by_cases he : w.state.isEditing <;>
        simp_all [profStep, he, emailAgrees]
  | setBio v =>
      by_cases he : w.state.isEditing <;>
        simp_all [profStep, he, emailAgrees]
  | startEdit => simp_all [profStep, emailAgrees]
  | cancelEdit => simp_all [profStep, emailAgrees]
  | refetch =>
      cases hst : w.store uid with
      | none => simp_all [profStep, fetchUserData, fsGetDoc, emailAgrees]
      | some d =>
          refine ⟨?_, ?_⟩ <;>
            simp_all [profStep, fetchUserData, fsGetDoc, emailAgrees]
  | save =>
      cases hst : w.store uid with
      | none =>
          simp_all [profStep, handleSave, fsUpdateDoc, emailAgrees]
      | some d =>
          constructor
          · intro d2 hd2
            simp [profStep, handleSave, fsUpdateDoc, hst] at hd2
            simp [profStep, handleSave, fsUpdateDoc, hst, ← hd2]
          · simp [profStep, handleSave, fsUpdateDoc, hst, h d hst]

/-- C9: starting from any editor state that agrees with the store on
the email (in particular any freshly mounted state), no sequence of
client operations — edits of the enabled fields, mode toggles, saves,
refetches — ever changes the email stored in the profile document, and
the editor's email always still agrees with the stored one (every save
writes back the email that was loaded). -/
theorem C9_email_immutable (uid : String) (ops : List ProfileOp)
    (w : ProfileWorld) (h : emailAgrees uid w) :
    ((profRun uid w ops).store uid).map UserInfo.email =
      ((w.store uid).map UserInfo.email) ∧
    emailAgrees uid (profRun uid w ops) := by
  induction ops generalizing w with
  | nil => exact ⟨rfl, h⟩
  | cons op rest ih =>
      have hs := profStep_email uid w op h
      have hr := ih (profStep uid w op) hs.1
      exact ⟨hr.1.trans hs.2, hr.2⟩

/-- C9 witness: the invariant theorem applied at the concrete store,
running an edit-and-save session. -/
theorem C9_email_immutable_witness :
    emailAgrees "U1"
      { store := wStore,
        state := { userInfo := wInfo, isEditing := false,
                   isSaving := false } } ∧
    (((profRun "U1"
        { store := wStore,
          state := { userInfo := wInfo, isEditing := false,
                     isSaving := false } }
        [ProfileOp.startEdit, ProfileOp.setNombre "Eva",
         ProfileOp.setBio "bye", ProfileOp.save]).store "U1").map
          UserInfo.email =
      ((wStore "U1").map UserInfo.email) ∧
     emailAgrees "U1"
       (profRun "U1"
         { store := wStore,
           state := { userInfo := wInfo, isEditing := false,
                      isSaving := false } }
         [ProfileOp.startEdit, ProfileOp.setNombre "Eva",
          ProfileOp.setBio "bye", ProfileOp.save])) :=
  have hagrees : emailAgrees "U1"
      { store := wStore,
        state := { userInfo := wInfo, isEditing := false,
                   isSaving := false } } := by
    intro d hd
    have h2 : wInfo = d := Option.some.inj hd
    rw [← h2]
  ⟨hagrees,
   C9_email_immutable "U1"
     [ProfileOp.startEdit, ProfileOp.setNombre "Eva",
      ProfileOp.setBio "bye", ProfileOp.save]
     { store := wStore,
       state := { userInfo := wInfo, isEditing := false,
                  isSaving := false } } hagrees⟩

end PXI
